import Mathlib

/-!
Verification of the dense-AD elementary-function library in
`opm/material/densead/Math.hpp`.

The library operates on `Evaluation<ValueType, numVars>` objects: a scalar
value paired with a dense vector of `numVars` partial derivatives.  All
scalar mathematics is delegated to `MathToolbox<ValueType>`, an external
backend; we model that backend as an explicit record of scalar functions so
that every library function below is a faithful transcription of the C++
template body, parametric in the backend exactly as the template is.

The scalar type is any linear ordered field (the C++ code only uses field
arithmetic, order comparisons against literals, and the backend functions).
-/

namespace Opm

variable {α : Type} [LinearOrderedField α] {n : ℕ}

/-- The value-plus-derivatives entity of the dense AD framework.  In C++ this
is `Opm::DenseAd::Evaluation<ValueType, numVars>` with a public scalar member
`value` and a `std::array` member `derivatives` of length `numVars`. -/
@[ext]
structure Evaluation (α : Type) (n : ℕ) where
  value : α
  derivatives : Fin n → α

/-- The interface of the scalar backend `MathToolbox<ValueType>` that the AD
library consumes: the elementary scalar functions plus the approximate
comparison `isSame`. -/
structure MathToolbox (α : Type) where
  sin : α → α
  cos : α → α
  tan : α → α
  asin : α → α
  acos : α → α
  atan : α → α
  atan2 : α → α → α
  exp : α → α
  log : α → α
  sqrt : α → α
  pow : α → α → α
  isSame : α → α → α → Bool

/-- Modelled from the spec: comparing an `Evaluation` with a plain scalar
(`base == 0.0` in the three `pow` overloads) resolves to the
`Evaluation` class (its header is outside `src/`); per the spec, the
zero-base guard fires exactly when the base value part is zero, i.e. the
comparison inspects the scalar value part. -/
def evalEqScalar (x : Evaluation α n) (s : α) : Prop :=
  x.value = s

instance (x : Evaluation α n) (s : α) : Decidable (evalEqScalar x s) :=
  inferInstanceAs (Decidable (x.value = s))

/-- Modelled from the spec: assigning a plain scalar to an `Evaluation`
(`result = 0.0` in the three `pow` overloads) resolves to the
`Evaluation` class (its header is outside `src/`); per the spec, a constant
AD value carries the scalar value and an all-zero derivative vector. -/
def assignScalar (s : α) : Evaluation α n :=
  ⟨s, fun _ => 0⟩

namespace DenseAd

/-- `abs(x)`: negate value and all derivatives when `x.value < 0.0`,
otherwise copy value and derivatives unchanged. -/
def abs (x : Evaluation α n) : Evaluation α n :=
  if x.value < 0 then
    ⟨-x.value, fun curVarIdx => -x.derivatives curVarIdx⟩
  else
    ⟨x.value, fun curVarIdx => x.derivatives curVarIdx⟩

/-- `min(x1, x2)` for two `Evaluation` arguments: pick `x1` under the strict
comparison `x1.value < x2.value`, otherwise pick `x2`, copying the chosen
operand's derivative vector. -/
def min (x1 x2 : Evaluation α n) : Evaluation α n :=
  if x1.value < x2.value then
    ⟨x1.value, fun curVarIdx => x1.derivatives curVarIdx⟩
  else
    ⟨x2.value, fun curVarIdx => x2.derivatives curVarIdx⟩

/-- `min(x1, x2)` with a plain-scalar first argument: when `x1 < x2.value`
the result carries the scalar value and an all-zero derivative vector,
otherwise it copies `x2` (value and derivatives). -/
def minScalarEval (x1 : α) (x2 : Evaluation α n) : Evaluation α n :=
  if x1 < x2.value then
    ⟨x1, fun _ => 0⟩
  else
    ⟨x2.value, fun curVarIdx => x2.derivatives curVarIdx⟩

/-- `min(x1, x2)` with a plain-scalar second argument: delegates to the
scalar-first overload with the arguments swapped. -/
def minEvalScalar (x1 : Evaluation α n) (x2 : α) : Evaluation α n :=
  minScalarEval x2 x1

/-- `max(x1, x2)` for two `Evaluation` arguments: pick `x1` under the strict
comparison `x1.value > x2.value`, otherwise pick `x2`, copying the chosen
operand's derivative vector. -/
def max (x1 x2 : Evaluation α n) : Evaluation α n :=
  if x1.value > x2.value then
    ⟨x1.value, fun curVarIdx => x1.derivatives curVarIdx⟩
  else
    ⟨x2.value, fun curVarIdx => x2.derivatives curVarIdx⟩

/-- `max(x1, x2)` with a plain-scalar first argument: when `x1 > x2.value`
the result carries the scalar value and an all-zero derivative vector,
otherwise it copies `x2` (value and derivatives). -/
def maxScalarEval (x1 : α) (x2 : Evaluation α n) : Evaluation α n :=
  if x1 > x2.value then
    ⟨x1, fun _ => 0⟩
  else
    ⟨x2.value, fun curVarIdx => x2.derivatives curVarIdx⟩

/-- `max(x1, x2)` with a plain-scalar second argument: delegates to the
scalar-first overload with the arguments swapped. -/
def maxEvalScalar (x1 : Evaluation α n) (x2 : α) : Evaluation α n :=
  maxScalarEval x2 x1

/-- `tan(x)`: value is the backend tangent `tmp`; the chain-rule factor is
`1 + tmp*tmp`. -/
def tan (tb : MathToolbox α) (x : Evaluation α n) : Evaluation α n :=
  ⟨tb.tan x.value,
   fun curVarIdx => (1 + tb.tan x.value * tb.tan x.value) * x.derivatives curVarIdx⟩

/-- `atan(x)`: chain-rule factor `1/(1 + x.value*x.value)`. -/
def atan (tb : MathToolbox α) (x : Evaluation α n) : Evaluation α n :=
  ⟨tb.atan x.value,
   fun curVarIdx => 1 / (1 + x.value * x.value) * x.derivatives curVarIdx⟩

/-- `atan2(x, y)`: value is the backend `atan2`; each derivative is
`alpha / (y.value*y.value) * (dx*y.value - x.value*dy)` with
`alpha = 1/(1 + (x.value*x.value)/(y.value*y.value))`. -/
def atan2 (tb : MathToolbox α) (x y : Evaluation α n) : Evaluation α n :=
  ⟨tb.atan2 x.value y.value,
   fun curVarIdx =>
     1 / (1 + x.value * x.value / (y.value * y.value))
       / (y.value * y.value)
       * (x.derivatives curVarIdx * y.value - x.value * y.derivatives curVarIdx)⟩

/-- `sin(x)`: chain-rule factor is the backend cosine of the value. -/
def sin (tb : MathToolbox α) (x : Evaluation α n) : Evaluation α n :=
  ⟨tb.sin x.value,
   fun curVarIdx => tb.cos x.value * x.derivatives curVarIdx⟩

/-- `asin(x)`: chain-rule factor `1.0/sqrt(1 - x.value*x.value)`. -/
def asin (tb : MathToolbox α) (x : Evaluation α n) : Evaluation α n :=
  ⟨tb.asin x.value,
   fun curVarIdx => 1 / tb.sqrt (1 - x.value * x.value) * x.derivatives curVarIdx⟩

/-- `cos(x)`: chain-rule factor is the negated backend sine of the value. -/
def cos (tb : MathToolbox α) (x : Evaluation α n) : Evaluation α n :=
  ⟨tb.cos x.value,
   fun curVarIdx => -tb.sin x.value * x.derivatives curVarIdx⟩

/-- `acos(x)`: chain-rule factor `-1.0/sqrt(1 - x.value*x.value)`. -/
def acos (tb : MathToolbox α) (x : Evaluation α n) : Evaluation α n :=
  ⟨tb.acos x.value,
   fun curVarIdx => -(1 / tb.sqrt (1 - x.value * x.value)) * x.derivatives curVarIdx⟩

/-- `sqrt(x)`: value is the backend square root `sqrt_x`; the chain-rule
factor is `0.5/sqrt_x`. -/
def sqrt (tb : MathToolbox α) (x : Evaluation α n) : Evaluation α n :=
  ⟨tb.sqrt x.value,
   fun curVarIdx => 0.5 / tb.sqrt x.value * x.derivatives curVarIdx⟩

/-- `exp(x)`: value is the backend exponential `exp_x`, which is also the
chain-rule factor. -/
def exp (tb : MathToolbox α) (x : Evaluation α n) : Evaluation α n :=
  ⟨tb.exp x.value,
   fun curVarIdx => tb.exp x.value * x.derivatives curVarIdx⟩

/-- `log(x)`: chain-rule factor `1/x.value`. -/
def log (tb : MathToolbox α) (x : Evaluation α n) : Evaluation α n :=
  ⟨tb.log x.value,
   fun curVarIdx => 1 / x.value * x.derivatives curVarIdx⟩

/-- `pow(base, exp)` with an `Evaluation` base and a constant exponent: the
generic branch sets the value to the backend power `pow_x` and each
derivative to `pow_x/base.value*exp` times the base derivative; when
`base == 0.0` the whole result is overwritten by the scalar `0.0`. -/
def powEC (tb : MathToolbox α) (base : Evaluation α n) (exp : α) : Evaluation α n :=
  if evalEqScalar base 0 then
    assignScalar 0
  else
    ⟨tb.pow base.value exp,
     fun curVarIdx =>
       tb.pow base.value exp / base.value * exp * base.derivatives curVarIdx⟩

/-- `pow(base, exp)` with a constant base and an `Evaluation` exponent: the
generic branch computes `lnBase = log(base)`, sets the value to
`exp(lnBase*exp.value)` and each derivative to `lnBase` times the result
value times the exponent derivative; when `base == 0.0` the whole result is
the scalar `0.0`. -/
def powCE (tb : MathToolbox α) (base : α) (exp : Evaluation α n) : Evaluation α n :=
  if base = 0 then
    assignScalar 0
  else
    ⟨tb.exp (tb.log base * exp.value),
     fun curVarIdx =>
       tb.log base * tb.exp (tb.log base * exp.value) * exp.derivatives curVarIdx⟩

/-- `pow(base, exp)` with two `Evaluation` arguments: the generic branch sets
the value to the backend power `valuePow` and each derivative to
`(g*fPrime/f + logF*gPrime) * valuePow` with `f = base.value`,
`g = exp.value`, `logF = log(f)`; when `base == 0.0` the whole result is the
scalar `0.0`. -/
def powEE (tb : MathToolbox α) (base exp : Evaluation α n) : Evaluation α n :=
  if evalEqScalar base 0 then
    assignScalar 0
  else
    ⟨tb.pow base.value exp.value,
     fun curVarIdx =>
       (exp.value * base.derivatives curVarIdx / base.value
          + tb.log base.value * exp.derivatives curVarIdx)
         * tb.pow base.value exp.value⟩

end DenseAd

namespace EvalToolbox

/-- `MathToolbox<Evaluation>::isSame(a, b, tolerance)`: false as soon as the
inner toolbox comparison rejects the value parts or any derivative pair,
true otherwise. -/
def isSame (tb : MathToolbox α) (a b : Evaluation α n) (tolerance : α) : Bool :=
  tb.isSame a.value b.value tolerance
    && (List.finRange n).all
         (fun curVarIdx => tb.isSame (a.derivatives curVarIdx) (b.derivatives curVarIdx) tolerance)

end EvalToolbox

/-- A concrete rational backend used only to instantiate theorems with
hypotheses at explicit inputs; the library is parametric in the backend, so
any record of functions will do. -/
def qTB : MathToolbox ℚ where
  sin := fun v => v + 1
  cos := fun v => v + 2
  tan := fun v => v + 3
  asin := fun v => v + 4
  acos := fun v => v + 5
  atan := fun v => v + 6
  atan2 := fun v w => v + w
  exp := fun v => v + 7
  log := fun v => v + 8
  sqrt := fun v => v + 9
  pow := fun v w => v * w + 10
  isSame := fun a b tol => decide (|a - b| ≤ tol)

/-- A sample rational AD value with value `1` and derivatives `(10, 20)`. -/
def e1 : Evaluation ℚ 2 := ⟨1, fun i => if i = 0 then 10 else 20⟩

/-- A sample rational AD value with value `3` and derivatives `(30, 40)`. -/
def e3 : Evaluation ℚ 2 := ⟨3, fun i => if i = 0 then 30 else 40⟩

/-- A sample rational AD value with value `1` and derivatives `(7, 8)`,
sharing its value with `e1` to exercise tie cases. -/
def e1t : Evaluation ℚ 2 := ⟨1, fun i => if i = 0 then 7 else 8⟩

/-- A sample rational AD value with value `3` and derivatives `(2, 7)`,
matching the worked example of the specification. -/
def e27 : Evaluation ℚ 2 := ⟨3, fun i => if i = 0 then 2 else 7⟩

/-- C10: `abs` is idempotent: the result of `abs` never has a value below
zero, so the second application takes the copy-unchanged branch and returns
value and every derivative component of the first result exactly. -/
theorem abs_idempotent (x : Evaluation α n) :
    DenseAd.abs (DenseAd.abs x) = DenseAd.abs x := by
  by_cases h : x.value < 0
  · have h1 : ¬(-x.value < 0) := not_lt.mpr (le_of_lt (neg_pos.mpr h))
    simp [DenseAd.abs, h, h1]
  · simp [DenseAd.abs, h]

/-- C3: `min` of two AD values returns `x1` exactly (value and every
derivative component) when `x1.value < x2.value` and returns `x2` exactly
otherwise, ties included; `max` uses the opposite strict comparison and also
resolves ties to `x2`. -/
theorem min_max_select (x1 x2 : Evaluation α n) :
    (x1.value < x2.value → DenseAd.min x1 x2 = x1)
      ∧ (x2.value ≤ x1.value → DenseAd.min x1 x2 = x2)
      ∧ (x2.value < x1.value → DenseAd.max x1 x2 = x1)
      ∧ (x1.value ≤ x2.value → DenseAd.max x1 x2 = x2) := by
  refine ⟨fun h => ?_, fun h => ?_, fun h => ?_, fun h => ?_⟩
  · simp [DenseAd.min, h]
  · simp [DenseAd.min, not_lt.mpr h]
  · simp [DenseAd.max, h]
  · simp [DenseAd.max, not_lt.mpr h]

/-- C3 witness: concrete selections including the documented tie-break of
`min` to the second operand. -/
theorem min_max_select_witness :
    DenseAd.min e1 e3 = e1 ∧ DenseAd.min e3 e1 = e1 ∧ DenseAd.min e1 e1t = e1t
      ∧ DenseAd.max e3 e1 = e3 ∧ DenseAd.max e1 e3 = e3 ∧ DenseAd.max e1 e1t = e1t :=
  ⟨(min_max_select e1 e3).1 (by norm_num [e1, e3]),
   (min_max_select e3 e1).2.1 (by norm_num [e1, e3]),
   (min_max_select e1 e1t).2.1 (by norm_num [e1, e1t]),
   (min_max_select e3 e1).2.2.1 (by norm_num [e1, e3]),
   (min_max_select e1 e3).2.2.2 (by norm_num [e1, e3]),
   (min_max_select e1 e1t).2.2.2 (by norm_num [e1, e1t])⟩

/-- C4: the mixed `min`/`max` overloads with a scalar first argument return
the scalar value with an all-zero derivative vector when the scalar wins the
strict comparison, and otherwise return the AD operand unchanged (value and
derivative vector). -/
theorem min_max_scalar (s : α) (x : Evaluation α n) :
    (s < x.value → DenseAd.minScalarEval s x = ⟨s, fun _ => 0⟩)
      ∧ (x.value ≤ s → DenseAd.minScalarEval s x = x)
      ∧ (x.value < s → DenseAd.maxScalarEval s x = ⟨s, fun _ => 0⟩)
      ∧ (s ≤ x.value → DenseAd.maxScalarEval s x = x) := by
  refine ⟨fun h => ?_, fun h => ?_, fun h => ?_, fun h => ?_⟩
  · simp [DenseAd.minScalarEval, h]
  · simp [DenseAd.minScalarEval, not_lt.mpr h]
  · simp [DenseAd.maxScalarEval, h]
  · simp [DenseAd.maxScalarEval, not_lt.mpr h]

/-- C4 witness: the worked example of the specification, with `x.value = 3`
and derivatives `(2, 7)`: `min(5, x)` keeps `x` unchanged and `min(1, x)`
yields value `1` with zero derivatives; analogously for `max`. -/
theorem min_max_scalar_witness :
    DenseAd.minScalarEval (5 : ℚ) e27 = e27
      ∧ DenseAd.minScalarEval (1 : ℚ) e27 = ⟨1, fun _ => 0⟩
      ∧ DenseAd.maxScalarEval (1 : ℚ) e27 = e27
      ∧ DenseAd.maxScalarEval (5 : ℚ) e27 = ⟨5, fun _ => 0⟩ :=
  ⟨(min_max_scalar 5 e27).2.1 (by norm_num [e27]),
   (min_max_scalar 1 e27).1 (by norm_num [e27]),
   (min_max_scalar 1 e27).2.2.2 (by norm_num [e27]),
   (min_max_scalar 5 e27).2.2.1 (by norm_num [e27])⟩

/-- C8: the scalar-second `min`/`max` overloads delegate to the scalar-first
overloads with swapped arguments, so the two argument orders agree exactly
in value and derivative vector. -/
theorem min_max_scalar_comm (x : Evaluation α n) (s : α) :
    DenseAd.minEvalScalar x s = DenseAd.minScalarEval s x
      ∧ DenseAd.maxEvalScalar x s = DenseAd.maxScalarEval s x :=
  ⟨rfl, rfl⟩

/-- C9: in the tie case of the mixed overloads (`s = x.value`) the strict
comparison fails, so both `min(s, x)` and `max(s, x)` return the AD operand
with its derivative vector copied, not zeroed. -/
theorem min_max_scalar_tie (s : α) (x : Evaluation α n) (h : s = x.value) :
    DenseAd.minScalarEval s x = x ∧ DenseAd.maxScalarEval s x = x := by
  subst h
  exact ⟨by simp [DenseAd.minScalarEval], by simp [DenseAd.maxScalarEval]⟩

/-- C9 witness: the tie at value `3` keeps the derivative vector `(2, 7)`. -/
theorem min_max_scalar_tie_witness :
    DenseAd.minScalarEval (3 : ℚ) e27 = e27 ∧ DenseAd.maxScalarEval (3 : ℚ) e27 = e27 :=
  min_max_scalar_tie 3 e27 (by norm_num [e27])

/-- C1: whenever the base has scalar value zero, each of the three `pow`
overloads returns the all-zero AD value (value `0`, every derivative `0`),
regardless of the exponent. -/
theorem pow_zero_base (tb : MathToolbox α) (b be e2 : Evaluation α n) (c s : α)
    (hb : b.value = 0) (hbe : be.value = 0) (hs : s = 0) :
    DenseAd.powEC tb b c = ⟨0, fun _ => 0⟩
      ∧ DenseAd.powCE tb s e2 = ⟨0, fun _ => 0⟩
      ∧ DenseAd.powEE tb be e2 = ⟨0, fun _ => 0⟩ := by
  refine ⟨?_, ?_, ?_⟩
  · simp [DenseAd.powEC, evalEqScalar, hb, assignScalar]
  · simp [DenseAd.powCE, hs, assignScalar]
  · simp [DenseAd.powEE, evalEqScalar, hbe, assignScalar]

/-- A sample rational AD value with value `0` and derivatives `(5, 9)`,
matching the zero-base example of the specification. -/
def e59 : Evaluation ℚ 2 := ⟨0, fun i => if i = 0 then 5 else 9⟩

/-- C1 witness: a base of value `0` with derivatives `(5, 9)` yields the
all-zero result under all three overloads, with exponent `2` (constant) or
`e3` (AD). -/
theorem pow_zero_base_witness :
    DenseAd.powEC qTB e59 (2 : ℚ) = ⟨0, fun _ => 0⟩
      ∧ DenseAd.powCE qTB (0 : ℚ) e3 = ⟨0, fun _ => 0⟩
      ∧ DenseAd.powEE qTB e59 e3 = ⟨0, fun _ => 0⟩ :=
  pow_zero_base qTB e59 e59 e3 2 0 rfl rfl rfl

/-- C2: each unary elementary function applies the backend scalar function
to the value part and multiplies every derivative component by the scalar
chain-rule factor stated in the specification. -/
theorem unary_chain_rule (tb : MathToolbox α) (x : Evaluation α n) :
    ((DenseAd.sin tb x).value = tb.sin x.value
        ∧ ∀ i, (DenseAd.sin tb x).derivatives i = tb.cos x.value * x.derivatives i)
      ∧ ((DenseAd.cos tb x).value = tb.cos x.value
        ∧ ∀ i, (DenseAd.cos tb x).derivatives i = -tb.sin x.value * x.derivatives i)
      ∧ ((DenseAd.tan tb x).value = tb.tan x.value
        ∧ ∀ i, (DenseAd.tan tb x).derivatives i = (1 + tb.tan x.value ^ 2) * x.derivatives i)
      ∧ ((DenseAd.asin tb x).value = tb.asin x.value
        ∧ ∀ i, (DenseAd.asin tb x).derivatives i
            = 1 / tb.sqrt (1 - x.value ^ 2) * x.derivatives i)
      ∧ ((DenseAd.acos tb x).value = tb.acos x.value
        ∧ ∀ i, (DenseAd.acos tb x).derivatives i
            = -(1 / tb.sqrt (1 - x.value ^ 2)) * x.derivatives i)
      ∧ ((DenseAd.atan tb x).value = tb.atan x.value
        ∧ ∀ i, (DenseAd.atan tb x).derivatives i
            = 1 / (1 + x.value ^ 2) * x.derivatives i)
      ∧ ((DenseAd.exp tb x).value = tb.exp x.value
        ∧ ∀ i, (DenseAd.exp tb x).derivatives i = tb.exp x.value * x.derivatives i)
      ∧ ((DenseAd.log tb x).value = tb.log x.value
        ∧ ∀ i, (DenseAd.log tb x).derivatives i = 1 / x.value * x.derivatives i)
      ∧ ((DenseAd.sqrt tb x).value = tb.sqrt x.value
        ∧ ∀ i, (DenseAd.sqrt tb x).derivatives i
            = 1 / (2 * tb.sqrt x.value) * x.derivatives i) := by
  refine ⟨⟨rfl, fun i => rfl⟩, ⟨rfl, fun i => rfl⟩, ⟨rfl, fun i => ?_⟩,
    ⟨rfl, fun i => ?_⟩, ⟨rfl, fun i => ?_⟩, ⟨rfl, fun i => ?_⟩,
    ⟨rfl, fun i => rfl⟩, ⟨rfl, fun i => rfl⟩, ⟨rfl, fun i => ?_⟩⟩
  · show (1 + tb.tan x.value * tb.tan x.value) * x.derivatives i = _
    rw [pow_two]
  · show 1 / tb.sqrt (1 - x.value * x.value) * x.derivatives i = _
    rw [pow_two]
  · show -(1 / tb.sqrt (1 - x.value * x.value)) * x.derivatives i = _
    rw [pow_two]
  · show 1 / (1 + x.value * x.value) * x.derivatives i = _
    rw [pow_two]
  · show 0.5 / tb.sqrt x.value * x.derivatives i = _
    rw [show (0.5 : α) = 1 / 2 by norm_num, div_div]

omit [LinearOrderedField α] in
/-- C6: the AD toolbox `isSame` holds exactly when the inner toolbox
comparison accepts the two value parts and every pair of derivative
components within the tolerance; any failed comparison makes it false. -/
theorem isSame_iff (tb : MathToolbox α) (a b : Evaluation α n) (tolerance : α) :
    EvalToolbox.isSame tb a b tolerance = true
      ↔ (tb.isSame a.value b.value tolerance = true
          ∧ ∀ i : Fin n,
              tb.isSame (a.derivatives i) (b.derivatives i) tolerance = true) := by
  simp [EvalToolbox.isSame, List.all_eq_true, List.mem_finRange]

/-- C7: `atan2(x, y)` carries the backend `atan2` of the two value parts,
and each derivative equals `alpha / y.value^2` times
`(dx*y.value - x.value*dy)` with `alpha = 1/(1 + (x.value/y.value)^2)`;
there is no branch for `y.value = 0`. -/
theorem atan2_chain_rule (tb : MathToolbox α) (x y : Evaluation α n) :
    (DenseAd.atan2 tb x y).value = tb.atan2 x.value y.value
      ∧ ∀ i, (DenseAd.atan2 tb x y).derivatives i
          = 1 / (1 + (x.value / y.value) ^ 2) / y.value ^ 2
              * (x.derivatives i * y.value - x.value * y.derivatives i) := by
  refine ⟨rfl, fun i => ?_⟩
  show 1 / (1 + x.value * x.value / (y.value * y.value)) / (y.value * y.value) * _ = _
  rw [div_pow, pow_two x.value, pow_two y.value]

/-- The real-number scalar backend: each toolbox operation is the
corresponding real elementary function, `pow` being the real power
`Real.rpow` and `isSame` the absolute-difference tolerance test. -/
noncomputable def realTB : MathToolbox ℝ where
  sin := Real.sin
  cos := Real.cos
  tan := Real.tan
  asin := Real.arcsin
  acos := Real.arccos
  atan := Real.arctan
  atan2 := fun v w => Real.arctan (v / w)
  exp := Real.exp
  log := Real.log
  sqrt := Real.sqrt
  pow := fun v w => v ^ w
  isSame := fun a b tolerance => decide (|a - b| ≤ tolerance)

/-- C5: with the real backend, at base value `2` and exponent value `3`, all
three `pow` overloads produce the value `8` (the non-varying operand of the
two-argument overload given all-zero derivatives), and the overload with one
AD operand produces exactly the same derivative vector as the two-argument
overload with the other operand held constant. -/
theorem pow_overloads_agree (k : ℕ) (d g : Fin k → ℝ) :
    (DenseAd.powEC realTB ⟨2, d⟩ 3).value = 8
      ∧ (DenseAd.powCE realTB 2 ⟨3, g⟩).value = 8
      ∧ (DenseAd.powEE realTB ⟨2, d⟩ ⟨3, fun _ => 0⟩).value = 8
      ∧ (DenseAd.powEE realTB ⟨2, fun _ => 0⟩ ⟨3, g⟩).value = 8
      ∧ (∀ i, (DenseAd.powEC realTB ⟨2, d⟩ 3).derivatives i
            = (DenseAd.powEE realTB ⟨2, d⟩ ⟨3, fun _ => 0⟩).derivatives i)
      ∧ (∀ i, (DenseAd.powCE realTB 2 ⟨3, g⟩).derivatives i
            = (DenseAd.powEE realTB ⟨2, fun _ => 0⟩ ⟨3, g⟩).derivatives i) := by
  have h2 : ¬((2 : ℝ) = 0) := by norm_num
  have hpow : (2 : ℝ) ^ (3 : ℝ) = 8 := by
    rw [show (3 : ℝ) = ((3 : ℕ) : ℝ) by norm_num, Real.rpow_natCast]
    norm_num
  have hexp : Real.exp (Real.log 2 * 3) = 8 := by
    rw [Real.exp_mul, Real.exp_log (by norm_num : (0 : ℝ) < 2)]
    exact hpow
  refine ⟨?_, ?_, ?_, ?_, fun i => ?_, fun i => ?_⟩
  · simp [DenseAd.powEC, evalEqScalar, h2, realTB, hpow]
  · simp [DenseAd.powCE, h2, realTB, hexp]
  · simp [DenseAd.powEE, evalEqScalar, h2, realTB, hpow]
  · simp [DenseAd.powEE, evalEqScalar, h2, realTB, hpow]
  · simp only [DenseAd.powEC, DenseAd.powEE, evalEqScalar, h2, if_false, realTB, hpow]
    ring
  · simp only [DenseAd.powCE, DenseAd.powEE, evalEqScalar, h2, if_false, realTB, hpow, hexp]
    ring

end Opm
